import Mathlib

/-
Verification of the HTTP audio stream session orchestrator
(http_audio_stream_session.cpp, CSpxHttpAudioStreamSession) and the
transport error taxonomy (source/core/usp/transport.h).

Shallow embedding conventions:
* The session's member variables become fields of `Session`.  The
  pending-result channel `m_audioIsDone` is a shared_ptr to a
  std::promise; the member being non-null is the Bool `audioIsDone`,
  and the stored value of the cycle's unique promise object is
  `promise : Option Result` (`none` = not yet resolved).  Calling
  std::promise::set_value on an already-satisfied promise throws
  std::future_error; that throw is `Fault.promiseAlreadySatisfied`.
* External collaborators (engine adapter, pump, property store) are
  parameters: the engine result returned by m_reco->GetResult() is an
  argument, property values fetched by GetStringValue are arguments.
* C++ exceptions become `Except Fault`.  A fault carries no partial
  state; no theorem below depends on field values after a fault.
* Unsigned arithmetic is Nat with explicit % 2^32 (resp. % 2^16)
  where the C++ computation is performed in uint32_t (uint16_t).
-/

namespace HttpSession

/-- State of an ISpxAudioPump as observed through GetState:
only Idle and Processing are relevant to this file. -/
inductive PumpState where
  | idle
  | processing
deriving DecidableEq

/-- A terminal recognition result (CSpxRecognitionResult): initialized by
InitFinalResult, InitErrorResult, or InitEndOfStreamResult.  The payload
string abstracts the text / error detail. -/
inductive Result where
  | final : String → Result
  | error : String → Result
  | endOfStream : Result
deriving DecidableEq

/-- SPXWAVEFORMATEX fields used by the session code. -/
structure WaveFormat where
  wFormatTag : Nat
  nChannels : Nat
  nSamplesPerSec : Nat
  nAvgBytesPerSec : Nat
  nBlockAlign : Nat
  wBitsPerSample : Nat
deriving DecidableEq

def WAVE_FORMAT_PCM : Nat := 1

/-- The C++ exceptions that the embedded code can raise. -/
inductive Fault where
  | runtimeError
  | promiseAlreadySatisfied
  | divisionByZero
  | alreadyInitialized
  | gstreamerNotFound
  | logicError : String → Fault
deriving DecidableEq

/-- The session's member variables (CSpxHttpAudioStreamSession).
`codecFormat` is the output format last pushed into the codec adapter
(adapterAsSetFormat->SetFormat in InitFromStream); it stands for the
adapter's configuration, owned by the session. -/
structure Session where
  audioPump : Option PumpState
  codecAdapter : Bool
  codecFormat : Option WaveFormat
  reco : Bool
  keepFactoryAlive : Bool
  fromMicrophone : Bool
  microphoneTimeoutInMS : Nat
  totalAudioinMS : Nat
  avgBytesPerSecond : Nat
  audioIsDone : Bool
  promise : Option Result
deriving DecidableEq

/-- Digit-prefix accumulation used by the std::stoi model. -/
def stoiCore (sign : Int) (cs : List Char) : Option Int :=
  let ds := cs.takeWhile Char.isDigit
  if ds.isEmpty then none
  else
    let v : Int := sign * ds.foldl (fun a c => a * 10 + ((c.toNat : Int) - 48)) 0
    if v < -2147483648 ∨ 2147483647 < v then none else some v

/-- Models std::stoi (base 10): skip leading whitespace, optional sign,
longest digit prefix; `none` models the invalid_argument / out_of_range
throw (no digits, or value outside the int range). -/
def stoi (str : String) : Option Int :=
  let cs := str.toList.dropWhile fun c =>
    c == ' ' || c == '\t' || c == '\n' || c == '\x0B' || c == '\x0C' || c == '\r'
  match cs with
  | '-' :: rest => stoiCore (-1) rest
  | '+' :: rest => stoiCore 1 rest
  | _ => stoiCore 1 cs

/-- CSpxHttpAudioStreamSession::Error: builds an error result and, when the
pending-result member is non-null, resolves the promise through it.  The
member is NOT cleared, and set_value on an already-resolved promise throws. -/
def Session.Error (s : Session) (msg : String) : Except Fault Session :=
  if s.audioIsDone then
    match s.promise with
    | some _ => Except.error Fault.promiseAlreadySatisfied
    | none => Except.ok { s with promise := some (Result.error msg) }
  else Except.ok s

/-- CSpxHttpAudioStreamSession::SetFormat.  A non-null format records the
average bytes per second.  A null format with a live channel flushes the
engine adapter, fetches its result (`engineResult` stands for the value
returned by m_reco->GetResult()), resolves the promise and clears the
member.  Throws SPXERR_RUNTIME_ERROR when the engine adapter is null. -/
def Session.SetFormat (s : Session) (pformat : Option WaveFormat)
    (engineResult : Result) : Except Fault Session :=
  if s.reco = false then Except.error Fault.runtimeError
  else
    match pformat with
    | some f => Except.ok { s with avgBytesPerSecond := f.nAvgBytesPerSec }
    | none =>
      if s.audioIsDone then
        match s.promise with
        | some _ => Except.error Fault.promiseAlreadySatisfied
        | none =>
          Except.ok { s with promise := some engineResult, audioIsDone := false }
      else Except.ok s

/-- CSpxHttpAudioStreamSession::FromBytesToMilisecond:
static_cast of bytes * 1000 to uint32_t, then uint32 division.  `none`
models the undefined behaviour of dividing by zero. -/
def FromBytesToMilisecond (bytes bytesPerSecond : Nat) : Option Nat :=
  if bytesPerSecond = 0 then none
  else some (bytes * 1000 % 4294967296 / bytesPerSecond)

/-- CSpxHttpAudioStreamSession::ProcessAudio: forwards the chunk to the
engine adapter (external), and for a microphone source accumulates the
chunk duration and synthesizes SetFormat(nullptr) once the accumulated
duration reaches the configured timeout. -/
def Session.ProcessAudio (s : Session) (chunkSize : Nat)
    (engineResult : Result) : Except Fault Session :=
  if s.reco = false then Except.error Fault.runtimeError
  else if s.fromMicrophone then
    match FromBytesToMilisecond chunkSize s.avgBytesPerSecond with
    | none => Except.error Fault.divisionByZero
    | some d =>
      let s2 := { s with totalAudioinMS := s.totalAudioinMS + d }
      if s2.microphoneTimeoutInMS ≤ s2.totalAudioinMS then
        s2.SetFormat none engineResult
      else Except.ok s2
  else Except.ok s

/-- CSpxHttpAudioStreamSession::StopPump: stops the pump only when it
exists and is in the Processing state. -/
def Session.StopPump (s : Session) : Session :=
  match s.audioPump with
  | some PumpState.processing => { s with audioPump := some PumpState.idle }
  | _ => s

/-- CSpxHttpAudioStreamSession::CleanupAfterEachAudioPumping: stop the pump,
release the pump reference, clear the microphone flag, zero the duration
counter.  (The codec adapter and engine adapter are NOT touched here.) -/
def Session.CleanupAfterEachAudioPumping (s : Session) : Session :=
  let s2 := s.StopPump
  { s2 with audioPump := none, fromMicrophone := false, totalAudioinMS := 0 }

/-- CSpxHttpAudioStreamSession::GetMicrophoneTimeout.  `valueFromUser` is
the string fetched by GetStringValue with default "0".  The literal "0"
returns the existing member unchanged; otherwise stoi parses the value
(assigned to a uint32_t), and a parse failure is rethrown via
ThrowLogicError (the implementation-defined e.what() suffix of the real
message is omitted). -/
def GetMicrophoneTimeout (valueFromUser : String) (currentTimeoutInMS : Nat) :
    Except Fault Nat :=
  if valueFromUser = "0" then Except.ok currentTimeoutInMS
  else
    match stoi valueFromUser with
    | none => Except.error (Fault.logicError ("error in parsing" ++ valueFromUser))
    | some v => Except.ok (v % 4294967296).toNat

/-- The numeric output-format overrides of InitFromStream: all three
stoi calls sit in one try block, and the catch resets all three fields
to the documented defaults 1 / 16 / 16000; so if any of the three values
fails to parse, every field gets its default.  The casts are the
uint16_t / uint32_t conversions of the assignments. -/
def ApplyOutputFormatOverrides (numChannelsString numBitsPerSampleString
    sampleRateString : String) (w : WaveFormat) : WaveFormat :=
  match stoi numChannelsString, stoi numBitsPerSampleString, stoi sampleRateString with
  | some ch, some bits, some rate =>
    { w with nChannels := (ch % 65536).toNat,
             wBitsPerSample := (bits % 65536).toNat,
             nSamplesPerSec := (rate % 4294967296).toNat }
  | _, _, _ =>
    { w with nChannels := 1, wBitsPerSample := 16, nSamplesPerSec := 16000 }

/-- Body of the task queued by CSpxHttpAudioStreamSession::InitFromFile:
throws SPXERR_ALREADY_INITIALIZED if a pump already exists, else creates
the wav-file pump. -/
def Session.InitFromFileTask (s : Session) : Except Fault Session :=
  if s.audioPump.isSome then Except.error Fault.alreadyInitialized
  else Except.ok { s with audioPump := some PumpState.idle }

/-- Body of the task queued by InitFromMicrophone: as InitFromFile, and
additionally marks the source as the microphone. -/
def Session.InitFromMicrophoneTask (s : Session) : Except Fault Session :=
  if s.audioPump.isSome then Except.error Fault.alreadyInitialized
  else Except.ok { s with audioPump := some PumpState.idle, fromMicrophone := true }

/-- Body of the task queued by InitFromStream: throws when a pump exists;
for a non-PCM declared format it requires the codec adapter (throwing
SPXERR_GSTREAMER_NOT_FOUND_ERROR when unavailable) and pushes the
override-adjusted format into it; then creates the stream pump. -/
def Session.InitFromStreamTask (s : Session) (streamFormat : WaveFormat)
    (codecAvailable : Bool)
    (numChannelsString numBitsPerSampleString sampleRateString : String) :
    Except Fault Session :=
  if s.audioPump.isSome then Except.error Fault.alreadyInitialized
  else if streamFormat.wFormatTag ≠ WAVE_FORMAT_PCM then
    if codecAvailable = false then Except.error Fault.gstreamerNotFound
    else
      let w := ApplyOutputFormatOverrides numChannelsString
        numBitsPerSampleString sampleRateString streamFormat
      Except.ok { s with codecAdapter := true, codecFormat := some w,
                         audioPump := some PumpState.idle }
  else Except.ok { s with audioPump := some PumpState.idle }

/-- Rendering of a caught C++ exception as the string handed to Error by
the catch block of CreateTask (the exact hresult text is not observable
in the source; only which fault occurred matters below). -/
def faultMessage : Fault → String
  | Fault.runtimeError => "SPXERR_RUNTIME_ERROR"
  | Fault.promiseAlreadySatisfied => "promise already satisfied"
  | Fault.divisionByZero => "integer division by zero"
  | Fault.alreadyInitialized => "SPXERR_ALREADY_INITIALIZED"
  | Fault.gstreamerNotFound => "SPXERR_GSTREAMER_NOT_FOUND_ERROR"
  | Fault.logicError m => m

/-- CSpxHttpAudioStreamSession::CreateTask: the packaged task catches every
exception thrown by the body and converts it into a call to Error; the
fault does not propagate to the submitter.  (The bodies modelled here
throw before mutating the session, so applying Error to the pre-state is
exact.) -/
def RunWrappedTask (body : Session → Except Fault Session) (s : Session) :
    Except Fault Session :=
  match body s with
  | Except.ok s2 => Except.ok s2
  | Except.error f => s.Error (faultMessage f)

/-- A callback delivered on the audio pump's own thread while the task
body of StartStreamingAudioAndWaitForResult waits on the channel:
a format notification, the terminating null-format notification (carrying
the value m_reco->GetResult() would return at the flush), an audio chunk
(carrying that same value in case the chunk itself triggers the flush),
or a spontaneous Error from the pump site. -/
inductive PumpEvent where
  | fmt : WaveFormat → PumpEvent
  | endOfStream : Result → PumpEvent
  | chunk : Nat → Result → PumpEvent
  | err : String → PumpEvent
deriving DecidableEq

/-- Placeholder for the GetResult argument on paths that never read it
(a non-null SetFormat ignores the engine result). -/
def dummyResult : Result := Result.endOfStream

def ApplyPumpEvent (s : Session) : PumpEvent → Except Fault Session
  | PumpEvent.fmt w => s.SetFormat (some w) dummyResult
  | PumpEvent.endOfStream r => s.SetFormat none r
  | PumpEvent.chunk sz r => s.ProcessAudio sz r
  | PumpEvent.err m => s.Error m

/-- Applies the pump-thread callbacks in arrival order.  A throw inside a
callback happens on the pump thread, not in the waiting task, so delivery
simply stops there and the session keeps its last state. -/
def RunPumpEvents (s : Session) : List (Nat × PumpEvent) → Session
  | [] => s
  | e :: rest =>
    match ApplyPumpEvent s e.2 with
    | Except.ok s2 => RunPumpEvents s2 rest
    | Except.error _ => s

/-- The per-cycle setup performed by the task body once the pump check has
passed: lazily created engine adapter, stored timeout, zeroed duration
counter, a fresh unresolved pending-result channel, and the started pump. -/
def CycleStart (s : Session) (timeoutInMS : Nat) : Session :=
  { s with reco := true,
           microphoneTimeoutInMS := timeoutInMS,
           totalAudioinMS := 0,
           audioIsDone := true,
           promise := none,
           audioPump := some PumpState.processing }

/-- The pump-thread callbacks the waiting task can observe: those arriving
no later than the wait deadline, which is the stored microphone timeout
plus (milliseconds)1min = 60000 ms (line `future.wait_for(
m_microphoneTimeoutInMS + (milliseconds)1min)`). -/
def WaitObservedEvents (timeoutInMS : Nat) (events : List (Nat × PumpEvent)) :
    List (Nat × PumpEvent) :=
  events.filter fun e => decide (e.1 ≤ timeoutInMS + 60000)

def bailoutMessage : String :=
  "Bailed out due to wait more than 1 minutes for the result of enrollment or speaker recognition."

def pumpAccessErrorMessage : String := "Error accessing audio pump"

/-- Body of the task run synchronously by
CSpxHttpAudioStreamSession::StartStreamingAudioAndWaitForResult.
`events` is the timed trace of callbacks the pump thread delivers
(in arrival order).  Returns the final session state and the result the
caller receives; `none` would be the null result pointer (unreached on
the paths modelled: a GetMicrophoneTimeout throw surfaces as the
Except.error, which the CreateTask wrapper would route to Error).
The deferred-cleanup smart pointer `finish` is constructed only at the
end of the body, so the early no-pump return does not run cleanup. -/
def Session.StartStreamingAudioAndWaitForResult (s : Session)
    (micTimeoutProp : String) (events : List (Nat × PumpEvent)) :
    Except Fault (Session × Option Result) :=
  let s1 := { s with reco := true }
  match s1.audioPump with
  | none => Except.ok (s1, some (Result.error pumpAccessErrorMessage))
  | some _ =>
    match GetMicrophoneTimeout micTimeoutProp s1.microphoneTimeoutInMS with
    | Except.error f => Except.error f
    | Except.ok timeoutInMS =>
      let s2 := CycleStart s1 timeoutInMS
      let s3 := RunPumpEvents s2 (WaitObservedEvents timeoutInMS events)
      let result := match s3.promise with
        | some r => r
        | none => Result.error bailoutMessage
      Except.ok (s3.CleanupAfterEachAudioPumping, some result)

/-- Observable side effects of Term, in execution order. -/
inductive Action where
  | stopPump
  | errorCall
  | closeCodec
  | termThreadService
  | releasePump
  | releaseFactory
  | releaseCodec
  | releaseReco
deriving DecidableEq

/-- The unconditional tail of Term: close the codec adapter if present,
terminate the thread service, then release pump (if present), factory
reference, codec adapter and engine adapter, in that order. -/
def TermReleases (s : Session) (log : List Action) : Session × List Action :=
  let log2 := log
    ++ (if s.codecAdapter then [Action.closeCodec] else [])
    ++ [Action.termThreadService]
    ++ (if s.audioPump.isSome then [Action.releasePump] else [])
    ++ [Action.releaseFactory, Action.releaseCodec, Action.releaseReco]
  ({ s with audioPump := none, keepFactoryAlive := false,
            codecAdapter := false, codecFormat := none, reco := false }, log2)

/-- CSpxHttpAudioStreamSession::Term: when the pump is mid-cycle it first
calls m_audioPump->StopPump() and only then, if the pending-result member
is non-null, calls Error("Terminate the http session."); afterwards the
resources are released. -/
def Session.Term (s : Session) : Except Fault (Session × List Action) :=
  if s.audioPump = some PumpState.processing then
    let s1 := { s with audioPump := some PumpState.idle }
    if s1.audioIsDone then
      match s1.Error "Terminate the http session." with
      | Except.error f => Except.error f
      | Except.ok s2 => Except.ok (TermReleases s2 [Action.stopPump, Action.errorCall])
    else Except.ok (TermReleases s1 [Action.stopPump])
  else Except.ok (TermReleases s [])

/-- Folds ProcessAudio over a list of microphone chunk byte sizes;
`engineResult` is the value m_reco->GetResult() yields if the flush is
triggered during the fold. -/
def ProcessChunks (s : Session) (engineResult : Result) :
    List Nat → Except Fault Session
  | [] => Except.ok s
  | sz :: rest =>
    match s.ProcessAudio sz engineResult with
    | Except.ok s2 => ProcessChunks s2 engineResult rest
    | Except.error f => Except.error f

/-- Number of ProcessAudio steps along the chunk list at which the
pending-result channel goes from unresolved to resolved. -/
def ResolveSteps (s : Session) (engineResult : Result) : List Nat → Nat
  | [] => 0
  | sz :: rest =>
    match s.ProcessAudio sz engineResult with
    | Except.ok s2 =>
      (if s.promise = none ∧ s2.promise ≠ none then 1 else 0)
        + ResolveSteps s2 engineResult rest
    | Except.error _ => 0

end HttpSession

namespace UspTransport

/-- The _TransportError enum of source/core/usp/transport.h, with every
enumerator. -/
inductive TransportError where
  | TRANSPORT_ERROR_UNKNOWN
  | TRANSPORT_ERROR_REMOTE_CLOSED
  | TRANSPORT_ERROR_CONNECTION_FAILURE
  | TRANSPORT_ERROR_WEBSOCKET_UPGRADE
  | TRANSPORT_ERROR_WEBSOCKET_SEND_FRAME
  | TRANSPORT_ERROR_WEBSOCKET_ERROR
  | TRANSPORT_ERROR_DNS_FAILURE
deriving DecidableEq, Fintype

/-- The _TransportErrorInfo struct: reason, numeric code, detail string. -/
structure TransportErrorInfo where
  reason : TransportError
  errorCode : Int
  errorString : String

/-- The six categories the specification names, in its order. -/
def specCategories : List TransportError :=
  [TransportError.TRANSPORT_ERROR_REMOTE_CLOSED,
   TransportError.TRANSPORT_ERROR_CONNECTION_FAILURE,
   TransportError.TRANSPORT_ERROR_WEBSOCKET_UPGRADE,
   TransportError.TRANSPORT_ERROR_WEBSOCKET_SEND_FRAME,
   TransportError.TRANSPORT_ERROR_WEBSOCKET_ERROR,
   TransportError.TRANSPORT_ERROR_DNS_FAILURE]

end UspTransport

namespace HttpSession

/-- A mid-cycle microphone session: pump processing, engine adapter
present, live unresolved pending-result channel, 5000 ms timeout,
32000 bytes/s (16 kHz, 16-bit mono PCM). -/
def sessionMidCycle : Session :=
  { audioPump := some PumpState.processing, codecAdapter := false,
    codecFormat := none, reco := true, keepFactoryAlive := true,
    fromMicrophone := true, microphoneTimeoutInMS := 5000,
    totalAudioinMS := 0, avgBytesPerSecond := 32000,
    audioIsDone := true, promise := none }

/-- A session with no pump but a stale nonzero duration counter and a
stale microphone flag. -/
def sessionNoPump : Session :=
  { audioPump := none, codecAdapter := false, codecFormat := none,
    reco := false, keepFactoryAlive := true, fromMicrophone := true,
    microphoneTimeoutInMS := 5000, totalAudioinMS := 7,
    avgBytesPerSecond := 32000, audioIsDone := false, promise := none }

/-- A session holding an idle pump and a codec adapter, outside a cycle. -/
def sessionWithCodec : Session :=
  { audioPump := some PumpState.idle, codecAdapter := true,
    codecFormat := none, reco := true, keepFactoryAlive := true,
    fromMicrophone := false, microphoneTimeoutInMS := 5000,
    totalAudioinMS := 0, avgBytesPerSecond := 32000,
    audioIsDone := false, promise := none }

/-- A freshly initialized session holding an idle pump, outside a cycle. -/
def sessionIdlePump : Session :=
  { audioPump := some PumpState.idle, codecAdapter := false,
    codecFormat := none, reco := false, keepFactoryAlive := true,
    fromMicrophone := false, microphoneTimeoutInMS := 5000,
    totalAudioinMS := 0, avgBytesPerSecond := 0,
    audioIsDone := false, promise := none }

/-- A 16 kHz 16-bit mono PCM format descriptor. -/
def pcmFormat : WaveFormat :=
  { wFormatTag := 1, nChannels := 1, nSamplesPerSec := 16000,
    nAvgBytesPerSec := 32000, nBlockAlign := 2, wBitsPerSample := 16 }

/-- C1: counterexample.  On a mid-cycle session, an explicit Error
resolves the channel but leaves the member set; the flush path arriving
afterwards calls set_value on the already-satisfied promise and throws —
a fault, not the no-op the claim requires. -/
theorem C1_counterexample :
    (sessionMidCycle.Error "transport failure").bind
        (fun s1 => s1.SetFormat none (Result.final "flushed")) =
      Except.error Fault.promiseAlreadySatisfied := rfl

/-- C1 (amended): resolution is single-use with at-most-one effect only
in one direction.  After the flush path of SetFormat(null) resolves the
channel it also clears the member, so a later explicit error or second
flush is a no-op; but after an explicit Error resolves the channel the
member stays set, so a later flush or second error throws a
double-resolution fault instead of being a no-op. -/
theorem C1_single_resolution_flush_vs_error (s : Session) (r r2 : Result)
    (m m2 : String) (hreco : s.reco = true) (hdone : s.audioIsDone = true)
    (hp : s.promise = none) :
    (∃ s1, s.SetFormat none r = Except.ok s1 ∧ s1.promise = some r ∧
      s1.audioIsDone = false ∧ s1.Error m = Except.ok s1 ∧
      s1.SetFormat none r2 = Except.ok s1) ∧
    (∃ s2, s.Error m = Except.ok s2 ∧ s2.promise = some (Result.error m) ∧
      s2.audioIsDone = true ∧
      s2.SetFormat none r2 = Except.error Fault.promiseAlreadySatisfied ∧
      s2.Error m2 = Except.error Fault.promiseAlreadySatisfied) := by
  constructor
  · refine ⟨{ s with promise := some r, audioIsDone := false }, ?_, rfl, rfl, ?_, ?_⟩
    · simp [Session.SetFormat, hreco, hdone, hp]
    · simp [Session.Error]
    · simp [Session.SetFormat, hreco]
  · refine ⟨{ s with promise := some (Result.error m) }, ?_, rfl, hdone, ?_, ?_⟩
    · simp [Session.Error, hdone, hp]
    · simp [Session.SetFormat, hreco, hdone]
    · simp [Session.Error, hdone]

/-- C1 witness: the amended statement evaluated on the concrete
mid-cycle session. -/
theorem C1_witness :
    sessionMidCycle.reco = true ∧ sessionMidCycle.audioIsDone = true ∧
    sessionMidCycle.promise = none ∧
    ((∃ s1, sessionMidCycle.SetFormat none (Result.final "a") = Except.ok s1 ∧
        s1.promise = some (Result.final "a") ∧ s1.audioIsDone = false ∧
        s1.Error "m1" = Except.ok s1 ∧
        s1.SetFormat none (Result.final "b") = Except.ok s1) ∧
      (∃ s2, sessionMidCycle.Error "m1" = Except.ok s2 ∧
        s2.promise = some (Result.error "m1") ∧ s2.audioIsDone = true ∧
        s2.SetFormat none (Result.final "b") =
          Except.error Fault.promiseAlreadySatisfied ∧
        s2.Error "m2" = Except.error Fault.promiseAlreadySatisfied)) :=
  ⟨rfl, rfl, rfl,
    C1_single_resolution_flush_vs_error sessionMidCycle (Result.final "a")
      (Result.final "b") "m1" "m2" rfl rfl rfl⟩

/-- C5: counterexample.  A non-numeric microphone-timeout override does
not fall back to any default: GetMicrophoneTimeout rethrows the parse
failure as a logic error, aborting the cycle's task. -/
theorem C5_counterexample :
    GetMicrophoneTimeout "abc" 1234 =
      Except.error (Fault.logicError "error in parsingabc") := rfl

/-- C5 (amended): the PCM output-format overrides fall back silently to
the documented defaults 1 / 16 / 16000 whenever any of the three values
fails numeric parsing, without raising an error; the
microphone-timeout-in-milliseconds property does NOT fall back — a value
that fails numeric parsing is rethrown as a logic error. -/
theorem C5_pcm_fallback_mic_timeout_throws (w : WaveFormat)
    (chS bitsS rateS v : String) (m : Nat)
    (hfail : stoi chS = none ∨ stoi bitsS = none ∨ stoi rateS = none)
    (hv : stoi v = none) :
    ApplyOutputFormatOverrides chS bitsS rateS w =
      { w with nChannels := 1, wBitsPerSample := 16, nSamplesPerSec := 16000 } ∧
    GetMicrophoneTimeout v m =
      Except.error (Fault.logicError ("error in parsing" ++ v)) := by
  constructor
  · rcases hch : stoi chS with _ | ch <;> rcases hbits : stoi bitsS with _ | bits <;>
      rcases hrate : stoi rateS with _ | rate <;>
      simp [ApplyOutputFormatOverrides, hch, hbits, hrate] <;>
      simp [hch, hbits, hrate] at hfail
  · have h0 : ¬ (v = "0") := by
      intro h; rw [h] at hv; exact absurd hv (by decide)
    unfold GetMicrophoneTimeout
    rw [if_neg h0, hv]

/-- C5 witness: a failing channel-count override falls back to defaults;
the failing timeout value "abc" throws. -/
theorem C5_witness :
    (stoi "x" = none ∨ stoi "16" = none ∨ stoi "16000" = none) ∧
    stoi "abc" = none ∧
    (ApplyOutputFormatOverrides "x" "16" "16000" pcmFormat =
      { pcmFormat with nChannels := 1, wBitsPerSample := 16,
                       nSamplesPerSec := 16000 } ∧
     GetMicrophoneTimeout "abc" 1234 =
       Except.error (Fault.logicError ("error in parsing" ++ "abc"))) :=
  ⟨Or.inl (by decide), by decide,
    C5_pcm_fallback_mic_timeout_throws pcmFormat "x" "16" "16000" "abc" 1234
      (Or.inl (by decide)) (by decide)⟩

/-- C7: counterexample.  With a pump already present the init task body
does throw already-initialized, but the CreateTask wrapper catches the
throw and routes it to the Error path: the asynchronously submitted unit
completes normally (here the channel is absent, so the conversion is a
no-op) and no fault crosses back to the submitter. -/
theorem C7_counterexample :
    Session.InitFromFileTask sessionIdlePump =
      Except.error Fault.alreadyInitialized ∧
    RunWrappedTask Session.InitFromFileTask sessionIdlePump =
      Except.ok sessionIdlePump := ⟨rfl, rfl⟩

/-- C7 (amended): each of the three init task bodies throws an
already-initialized error whenever a pump exists, but the tasks are
submitted with ExecuteAsync and wrapped by CreateTask, whose catch block
converts the throw into a call to the session's Error path instead of
surfacing it synchronously to the submitter. -/
theorem C7_already_initialized_not_synchronous (s : Session)
    (fmt : WaveFormat) (avail : Bool) (aS bS cS : String)
    (hpump : s.audioPump.isSome = true) :
    Session.InitFromFileTask s = Except.error Fault.alreadyInitialized ∧
    Session.InitFromMicrophoneTask s = Except.error Fault.alreadyInitialized ∧
    s.InitFromStreamTask fmt avail aS bS cS =
      Except.error Fault.alreadyInitialized ∧
    RunWrappedTask Session.InitFromFileTask s =
      s.Error (faultMessage Fault.alreadyInitialized) ∧
    RunWrappedTask Session.InitFromMicrophoneTask s =
      s.Error (faultMessage Fault.alreadyInitialized) ∧
    RunWrappedTask (fun u => u.InitFromStreamTask fmt avail aS bS cS) s =
      s.Error (faultMessage Fault.alreadyInitialized) := by
  refine ⟨?_, ?_, ?_, ?_, ?_, ?_⟩
  all_goals
    simp [Session.InitFromFileTask, Session.InitFromMicrophoneTask,
      Session.InitFromStreamTask, RunWrappedTask, hpump]

/-- C7 witness: the amended statement at the concrete idle-pump session. -/
theorem C7_witness :
    sessionIdlePump.audioPump.isSome = true ∧
    (Session.InitFromFileTask sessionIdlePump =
      Except.error Fault.alreadyInitialized ∧
    Session.InitFromMicrophoneTask sessionIdlePump =
      Except.error Fault.alreadyInitialized ∧
    sessionIdlePump.InitFromStreamTask pcmFormat true "1" "16" "16000" =
      Except.error Fault.alreadyInitialized ∧
    RunWrappedTask Session.InitFromFileTask sessionIdlePump =
      sessionIdlePump.Error (faultMessage Fault.alreadyInitialized) ∧
    RunWrappedTask Session.InitFromMicrophoneTask sessionIdlePump =
      sessionIdlePump.Error (faultMessage Fault.alreadyInitialized) ∧
    RunWrappedTask (fun u => u.InitFromStreamTask pcmFormat true "1" "16" "16000")
        sessionIdlePump =
      sessionIdlePump.Error (faultMessage Fault.alreadyInitialized)) :=
  ⟨rfl, C7_already_initialized_not_synchronous sessionIdlePump pcmFormat true
    "1" "16" "16000" rfl⟩

/-- SetFormat never touches the codec-adapter or engine-adapter fields. -/
theorem SetFormat_stable (s : Session) (p : Option WaveFormat) (r : Result)
    (s2 : Session) (h : s.SetFormat p r = Except.ok s2) :
    s2.codecAdapter = s.codecAdapter ∧ s2.reco = s.reco := by
  unfold Session.SetFormat at h
  split at h
  · exact absurd h (by simp)
  · split at h
    · injection h with h2; subst h2; exact ⟨rfl, rfl⟩
    · split at h
      · split at h
        · exact absurd h (by simp)
        · injection h with h2; subst h2; exact ⟨rfl, rfl⟩
      · injection h with h2; subst h2; exact ⟨rfl, rfl⟩

/-- Error never touches the codec-adapter or engine-adapter fields. -/
theorem Error_stable (s : Session) (m : String) (s2 : Session)
    (h : s.Error m = Except.ok s2) :
    s2.codecAdapter = s.codecAdapter ∧ s2.reco = s.reco := by
  unfold Session.Error at h
  split at h
  · split at h
    · exact absurd h (by simp)
    · injection h with h2; subst h2; exact ⟨rfl, rfl⟩
  · injection h with h2; subst h2; exact ⟨rfl, rfl⟩

/-- ProcessAudio never touches the codec-adapter or engine-adapter
fields. -/
theorem ProcessAudio_stable (s : Session) (sz : Nat) (r : Result)
    (s2 : Session) (h : s.ProcessAudio sz r = Except.ok s2) :
    s2.codecAdapter = s.codecAdapter ∧ s2.reco = s.reco := by
  unfold Session.ProcessAudio at h
  split at h
  · exact absurd h (by simp)
  · split at h
    · split at h
      · exact absurd h (by simp)
      · dsimp only at h
        split at h
        · obtain ⟨h1, h2⟩ := SetFormat_stable _ none r s2 h
          exact ⟨h1, h2⟩
        · injection h with h2; subst h2; exact ⟨rfl, rfl⟩
    · injection h with h2; subst h2; exact ⟨rfl, rfl⟩

/-- A pump-thread callback never touches the codec-adapter or
engine-adapter fields. -/
theorem ApplyPumpEvent_stable (s : Session) (e : PumpEvent) (s2 : Session)
    (h : ApplyPumpEvent s e = Except.ok s2) :
    s2.codecAdapter = s.codecAdapter ∧ s2.reco = s.reco := by
  cases e with
  | fmt w => exact SetFormat_stable s (some w) dummyResult s2 h
  | endOfStream r => exact SetFormat_stable s none r s2 h
  | chunk sz r => exact ProcessAudio_stable s sz r s2 h
  | err m => exact Error_stable s m s2 h

/-- A whole pump-thread trace never touches the codec-adapter or
engine-adapter fields. -/
theorem RunPumpEvents_stable (evs : List (Nat × PumpEvent)) (s : Session) :
    (RunPumpEvents s evs).codecAdapter = s.codecAdapter ∧
    (RunPumpEvents s evs).reco = s.reco := by
  induction evs generalizing s with
  | nil => exact ⟨rfl, rfl⟩
  | cons e rest ih =>
    unfold RunPumpEvents
    cases he : ApplyPumpEvent s e.2 with
    | ok s2 =>
      have h1 := ApplyPumpEvent_stable s e.2 s2 he
      have h2 := ih s2
      exact ⟨h2.1.trans h1.1, h2.2.trans h1.2⟩
    | error f => exact ⟨rfl, rfl⟩

/-- Field effects of CleanupAfterEachAudioPumping. -/
theorem Cleanup_fields (s : Session) :
    (s.CleanupAfterEachAudioPumping).audioPump = none ∧
    (s.CleanupAfterEachAudioPumping).fromMicrophone = false ∧
    (s.CleanupAfterEachAudioPumping).totalAudioinMS = 0 ∧
    (s.CleanupAfterEachAudioPumping).codecAdapter = s.codecAdapter ∧
    (s.CleanupAfterEachAudioPumping).reco = s.reco := by
  unfold Session.CleanupAfterEachAudioPumping Session.StopPump
  split
  all_goals exact ⟨rfl, rfl, rfl, rfl, rfl⟩

/-- Once the pump check has passed and the microphone-timeout property is
readable, the task body runs the full cycle: start cycle, observe the
pump-thread callbacks arriving within the deadline, read the promise or
synthesize the bailout error, clean up. -/
theorem StartStreaming_pump_some (s : Session) (prop : String)
    (evs : List (Nat × PumpEvent)) (T : Nat) (ps : PumpState)
    (hp : s.audioPump = some ps)
    (hT : GetMicrophoneTimeout prop s.microphoneTimeoutInMS = Except.ok T) :
    s.StartStreamingAudioAndWaitForResult prop evs =
      Except.ok ((RunPumpEvents (CycleStart { s with reco := true } T)
          (WaitObservedEvents T evs)).CleanupAfterEachAudioPumping,
        some (match (RunPumpEvents (CycleStart { s with reco := true } T)
            (WaitObservedEvents T evs)).promise with
          | some r => r
          | none => Result.error bailoutMessage)) := by
  unfold Session.StartStreamingAudioAndWaitForResult
  simp only [hp, hT]

/-- C2: counterexample.  The early no-pump return leaves the duration
counter and microphone flag untouched (7 and true, not 0 and false)
because the deferred-cleanup guard is created only at the end of the task
body, after that return; and on a normal path the codec-adapter reference
survives the cycle, since cleanup never clears it. -/
theorem C2_counterexample :
    (sessionNoPump.StartStreamingAudioAndWaitForResult "0" []).map
        (fun p => (p.1.totalAudioinMS, p.1.fromMicrophone)) =
      Except.ok (7, true) ∧
    (sessionWithCodec.StartStreamingAudioAndWaitForResult "0" []).map
        (fun p => p.1.codecAdapter) = Except.ok true := ⟨rfl, rfl⟩

/-- C2 (amended): on every path that reaches the wait (pump present,
microphone-timeout property readable) cleanup runs before returning — the
pump reference is cleared, the microphone flag cleared and the duration
counter zeroed — while the codec-adapter reference is retained; the early
no-pump return performs no cleanup and returns the state unchanged except
for the lazily created engine adapter. -/
theorem C2_cleanup_on_wait_paths_only (s : Session) (prop : String)
    (evs : List (Nat × PumpEvent)) (T : Nat)
    (hT : GetMicrophoneTimeout prop s.microphoneTimeoutInMS = Except.ok T) :
    (s.audioPump.isSome = true →
      ∃ s2 r, s.StartStreamingAudioAndWaitForResult prop evs =
          Except.ok (s2, some r) ∧
        s2.audioPump = none ∧ s2.fromMicrophone = false ∧
        s2.totalAudioinMS = 0 ∧ s2.codecAdapter = s.codecAdapter ∧
        s2.reco = true) ∧
    (s.audioPump = none →
      s.StartStreamingAudioAndWaitForResult prop evs =
        Except.ok ({ s with reco := true },
          some (Result.error pumpAccessErrorMessage))) := by
  constructor
  · intro hps
    rcases hp : s.audioPump with _ | ps
    · rw [hp] at hps; simp at hps
    · have hstep := StartStreaming_pump_some s prop evs T ps hp hT
      refine ⟨_, _, hstep, (Cleanup_fields _).1, (Cleanup_fields _).2.1,
        (Cleanup_fields _).2.2.1, ?_, ?_⟩
      · exact ((Cleanup_fields _).2.2.2.1).trans
          (RunPumpEvents_stable (WaitObservedEvents T evs) _).1
      · exact ((Cleanup_fields _).2.2.2.2).trans
          (RunPumpEvents_stable (WaitObservedEvents T evs) _).2
  · intro hpn
    unfold Session.StartStreamingAudioAndWaitForResult
    simp only [hpn]

/-- C2 witness: the amended statement at the codec-holding session with
an empty trace, and at the no-pump session. -/
theorem C2_witness :
    GetMicrophoneTimeout "0" sessionWithCodec.microphoneTimeoutInMS =
      Except.ok 5000 ∧
    ((sessionWithCodec.audioPump.isSome = true →
      ∃ s2 r, sessionWithCodec.StartStreamingAudioAndWaitForResult "0" [] =
          Except.ok (s2, some r) ∧
        s2.audioPump = none ∧ s2.fromMicrophone = false ∧
        s2.totalAudioinMS = 0 ∧ s2.codecAdapter = sessionWithCodec.codecAdapter ∧
        s2.reco = true) ∧
    (sessionWithCodec.audioPump = none →
      sessionWithCodec.StartStreamingAudioAndWaitForResult "0" [] =
        Except.ok ({ sessionWithCodec with reco := true },
          some (Result.error pumpAccessErrorMessage)))) :=
  ⟨rfl, C2_cleanup_on_wait_paths_only sessionWithCodec "0" [] 5000 rfl⟩

/-- C3: for every cycle with a pump and a readable microphone-timeout
property, the blocking body always returns a result value; the wait
observes exactly the callbacks arriving within the stored timeout plus
the fixed 60000 ms (one minute) ceiling, and when those leave the channel
unresolved the returned result is the synthesized bailout error; in
particular a trace whose every callback arrives after the deadline yields
the bailout error, with cleanup still performed. -/
theorem C3_deadline_and_timeout_result (s : Session) (prop : String)
    (evs : List (Nat × PumpEvent)) (T : Nat) (ps : PumpState)
    (hpump : s.audioPump = some ps)
    (hT : GetMicrophoneTimeout prop s.microphoneTimeoutInMS = Except.ok T) :
    (∃ s2 r, s.StartStreamingAudioAndWaitForResult prop evs =
      Except.ok (s2, some r)) ∧
    ((RunPumpEvents (CycleStart { s with reco := true } T)
        (WaitObservedEvents T evs)).promise = none →
      s.StartStreamingAudioAndWaitForResult prop evs =
        Except.ok ((RunPumpEvents (CycleStart { s with reco := true } T)
            (WaitObservedEvents T evs)).CleanupAfterEachAudioPumping,
          some (Result.error bailoutMessage))) ∧
    ((∀ e ∈ evs, T + 60000 < e.1) →
      s.StartStreamingAudioAndWaitForResult prop evs =
        Except.ok ((CycleStart { s with reco := true }
            T).CleanupAfterEachAudioPumping,
          some (Result.error bailoutMessage))) := by
  have hstep := StartStreaming_pump_some s prop evs T ps hpump hT
  refine ⟨⟨_, _, hstep⟩, ?_, ?_⟩
  · intro hpr
    rw [hstep, hpr]
  · intro hlate
    have hnil : WaitObservedEvents T evs = [] := by
      unfold WaitObservedEvents
      rw [List.filter_eq_nil_iff]
      intro e he
      simp only [decide_eq_true_eq]
      exact Nat.not_le.mpr (hlate e he)
    rw [hstep, hnil]
    rfl

/-- C3 witness: a resolution arriving at 70000 ms is past the
5000 + 60000 ms deadline, so the call returns the bailout error. -/
theorem C3_witness :
    sessionIdlePump.audioPump = some PumpState.idle ∧
    GetMicrophoneTimeout "0" sessionIdlePump.microphoneTimeoutInMS =
      Except.ok 5000 ∧
    ((∃ s2 r, sessionIdlePump.StartStreamingAudioAndWaitForResult "0"
        [(70000, PumpEvent.endOfStream (Result.final "late"))] =
      Except.ok (s2, some r)) ∧
    ((RunPumpEvents (CycleStart { sessionIdlePump with reco := true } 5000)
        (WaitObservedEvents 5000
          [(70000, PumpEvent.endOfStream (Result.final "late"))])).promise = none →
      sessionIdlePump.StartStreamingAudioAndWaitForResult "0"
          [(70000, PumpEvent.endOfStream (Result.final "late"))] =
        Except.ok ((RunPumpEvents (CycleStart { sessionIdlePump with reco := true } 5000)
            (WaitObservedEvents 5000
              [(70000, PumpEvent.endOfStream (Result.final "late"))])).CleanupAfterEachAudioPumping,
          some (Result.error bailoutMessage))) ∧
    ((∀ e ∈ [((70000 : Nat), PumpEvent.endOfStream (Result.final "late"))],
        5000 + 60000 < e.1) →
      sessionIdlePump.StartStreamingAudioAndWaitForResult "0"
          [(70000, PumpEvent.endOfStream (Result.final "late"))] =
        Except.ok ((CycleStart { sessionIdlePump with reco := true }
            5000).CleanupAfterEachAudioPumping,
          some (Result.error bailoutMessage)))) :=
  ⟨rfl, rfl, C3_deadline_and_timeout_result sessionIdlePump "0"
    [(70000, PumpEvent.endOfStream (Result.final "late"))] 5000
    PumpState.idle rfl rfl⟩

/-- SetFormat can fault only with runtimeError or
promiseAlreadySatisfied, never with the division marker. -/
theorem SetFormat_no_div_zero (u : Session) (p : Option WaveFormat)
    (r : Result) :
    u.SetFormat p r ≠ Except.error Fault.divisionByZero := by
  unfold Session.SetFormat
  split
  · simp
  · split
    · simp
    · split
      · split
        · simp
        · simp
      · simp

/-- ProcessAudio on a cycle whose channel member is already cleared: the
chunk is forwarded (the counter still grows and SetFormat(nullptr) may be
re-invoked), but the flush path is guarded by the cleared member, so the
promise is untouched. -/
theorem ProcessAudio_after_flush (s : Session) (sz : Nat) (r : Result)
    (hreco : s.reco = true) (havg : s.avgBytesPerSecond ≠ 0)
    (hdone : s.audioIsDone = false) :
    ∃ s2, s.ProcessAudio sz r = Except.ok s2 ∧
      s2.promise = s.promise ∧ s2.audioIsDone = false ∧ s2.reco = true ∧
      s2.avgBytesPerSecond = s.avgBytesPerSecond := by
  unfold Session.ProcessAudio Session.SetFormat FromBytesToMilisecond
  cases hm : s.fromMicrophone with
  | false => exact ⟨s, by simp [hreco, hm], rfl, hdone, hreco, rfl⟩
  | true =>
    refine ⟨{ s with
      totalAudioinMS := s.totalAudioinMS + sz * 1000 % 4294967296 / s.avgBytesPerSecond },
      ?_, rfl, hdone, hreco, rfl⟩
    by_cases htr : s.microphoneTimeoutInMS ≤
        s.totalAudioinMS + sz * 1000 % 4294967296 / s.avgBytesPerSecond
    · simp [hreco, hm, havg, htr, hdone]
    · simp [hreco, hm, havg, htr]

/-- One accepted chunk contributes its resolution indicator and recurses. -/
theorem ResolveSteps_cons_ok (s s2 : Session) (r : Result) (sz : Nat)
    (rest : List Nat) (h : s.ProcessAudio sz r = Except.ok s2) :
    ResolveSteps s r (sz :: rest) =
      (if s.promise = none ∧ s2.promise ≠ none then 1 else 0) +
        ResolveSteps s2 r rest := by
  rw [ResolveSteps, h]

/-- One accepted chunk advances the fold. -/
theorem ProcessChunks_cons_ok (s s2 : Session) (r : Result) (sz : Nat)
    (rest : List Nat) (h : s.ProcessAudio sz r = Except.ok s2) :
    ProcessChunks s r (sz :: rest) = ProcessChunks s2 r rest := by
  rw [ProcessChunks, h]

/-- After the flush, a whole chunk list resolves the channel zero
further times. -/
theorem ProcessChunks_after_flush (sizes : List Nat) (s : Session)
    (r : Result) (hreco : s.reco = true) (havg : s.avgBytesPerSecond ≠ 0)
    (hdone : s.audioIsDone = false) :
    ResolveSteps s r sizes = 0 ∧
    ∃ s2, ProcessChunks s r sizes = Except.ok s2 ∧
      s2.promise = s.promise ∧ s2.audioIsDone = false := by
  induction sizes generalizing s with
  | nil => exact ⟨rfl, s, rfl, rfl, hdone⟩
  | cons sz rest ih =>
    obtain ⟨s2, heq, hprom, hdone2, hreco2, havg2⟩ :=
      ProcessAudio_after_flush s sz r hreco havg hdone
    obtain ⟨hcount, s3, heq3, hprom3, hdone3⟩ :=
      ih s2 hreco2 (by rw [havg2]; exact havg) hdone2
    refine ⟨?_, s3, ?_, hprom3.trans hprom, hdone3⟩
    · rw [ResolveSteps_cons_ok s s2 r sz rest heq, hcount]
      rcases hsp : s.promise with _ | v
      · simp [hprom, hsp]
      · simp [hsp]
    · rw [ProcessChunks_cons_ok s s2 r sz rest heq, heq3]

/-- The chunk that brings the accumulated duration up to the timeout
triggers the flush inside ProcessAudio: the channel is resolved with the
engine result and the member is cleared. -/
theorem ProcessAudio_trigger (s : Session) (sz : Nat) (r : Result)
    (hreco : s.reco = true) (hmic : s.fromMicrophone = true)
    (hdone : s.audioIsDone = true) (hp : s.promise = none)
    (havg : s.avgBytesPerSecond ≠ 0)
    (htr : s.microphoneTimeoutInMS ≤
      s.totalAudioinMS + sz * 1000 % 4294967296 / s.avgBytesPerSecond) :
    s.ProcessAudio sz r = Except.ok
      { s with
        totalAudioinMS := s.totalAudioinMS + sz * 1000 % 4294967296 / s.avgBytesPerSecond,
        promise := some r, audioIsDone := false } := by
  unfold Session.ProcessAudio Session.SetFormat FromBytesToMilisecond
  simp [hreco, hmic, havg, htr, hdone, hp]

/-- A chunk that leaves the accumulated duration below the timeout only
advances the counter. -/
theorem ProcessAudio_no_trigger (s : Session) (sz : Nat) (r : Result)
    (hreco : s.reco = true) (hmic : s.fromMicrophone = true)
    (havg : s.avgBytesPerSecond ≠ 0)
    (htr : ¬ s.microphoneTimeoutInMS ≤
      s.totalAudioinMS + sz * 1000 % 4294967296 / s.avgBytesPerSecond) :
    s.ProcessAudio sz r = Except.ok
      { s with
        totalAudioinMS := s.totalAudioinMS + sz * 1000 % 4294967296 / s.avgBytesPerSecond } := by
  unfold Session.ProcessAudio FromBytesToMilisecond
  simp [hreco, hmic, havg, htr]

/-- C4: in a microphone cycle with a live unresolved channel and a
nonzero recorded bytes-per-second rate, a chunk stream whose accumulated
duration reaches the configured timeout resolves the pending-result
channel exactly once — at the first chunk that reaches the timeout,
inside ProcessAudio itself, without waiting for the pump to end — and
every further chunk leaves the channel untouched. -/
theorem C4_end_of_stream_exactly_once (s : Session) (r : Result)
    (sizes : List Nat)
    (hreco : s.reco = true) (hmic : s.fromMicrophone = true)
    (hdone : s.audioIsDone = true) (hp : s.promise = none)
    (havg : s.avgBytesPerSecond ≠ 0) (hne : sizes ≠ [])
    (hreach : s.microphoneTimeoutInMS ≤ s.totalAudioinMS +
      (sizes.map fun sz => sz * 1000 % 4294967296 / s.avgBytesPerSecond).sum) :
    ResolveSteps s r sizes = 1 ∧
    ∃ s2, ProcessChunks s r sizes = Except.ok s2 ∧
      s2.promise = some r ∧ s2.audioIsDone = false := by
  induction sizes generalizing s with
  | nil => exact absurd rfl hne
  | cons sz rest ih =>
    by_cases htr : s.microphoneTimeoutInMS ≤
        s.totalAudioinMS + sz * 1000 % 4294967296 / s.avgBytesPerSecond
    · have heq := ProcessAudio_trigger s sz r hreco hmic hdone hp havg htr
      obtain ⟨hcount, s3, heq3, hprom3, hdone3⟩ :=
        ProcessChunks_after_flush rest
          { s with
            totalAudioinMS := s.totalAudioinMS + sz * 1000 % 4294967296 / s.avgBytesPerSecond,
            promise := some r, audioIsDone := false } r hreco havg rfl
      refine ⟨?_, s3, ?_, hprom3, hdone3⟩
      · rw [ResolveSteps_cons_ok s _ r sz rest heq, hcount, hp]
        simp
      · rw [ProcessChunks_cons_ok s _ r sz rest heq, heq3]
    · have heq := ProcessAudio_no_trigger s sz r hreco hmic havg htr
      cases rest with
      | nil =>
        exfalso
        apply htr
        simpa using hreach
      | cons sz2 rest2 =>
        rw [List.map_cons, List.sum_cons] at hreach
        obtain ⟨hcount, s3, heq3, hprom3, hdone3⟩ :=
          ih { s with
              totalAudioinMS := s.totalAudioinMS + sz * 1000 % 4294967296 / s.avgBytesPerSecond }
            hreco hmic hdone hp havg (by simp)
            (by
              show s.microphoneTimeoutInMS ≤
                (s.totalAudioinMS + sz * 1000 % 4294967296 / s.avgBytesPerSecond) +
                (((sz2 :: rest2).map fun x =>
                  x * 1000 % 4294967296 / s.avgBytesPerSecond)).sum
              omega)
        refine ⟨?_, s3, ?_, hprom3, hdone3⟩
        · rw [ResolveSteps_cons_ok s _ r sz (sz2 :: rest2) heq, hcount]
          simp [hp]
        · rw [ProcessChunks_cons_ok s _ r sz (sz2 :: rest2) heq, heq3]

/-- C4 witness: a 5000 ms timeout at 32000 bytes/s reached by two
160000-byte chunks; the channel is resolved exactly once. -/
theorem C4_witness :
    sessionMidCycle.reco = true ∧ sessionMidCycle.fromMicrophone = true ∧
    sessionMidCycle.audioIsDone = true ∧ sessionMidCycle.promise = none ∧
    sessionMidCycle.avgBytesPerSecond ≠ 0 ∧
    ([160000, 160000] : List Nat) ≠ [] ∧
    sessionMidCycle.microphoneTimeoutInMS ≤ sessionMidCycle.totalAudioinMS +
      (([160000, 160000] : List Nat).map
        (fun sz => sz * 1000 % 4294967296 / sessionMidCycle.avgBytesPerSecond)).sum ∧
    (ResolveSteps sessionMidCycle (Result.final "done") [160000, 160000] = 1 ∧
     ∃ s2, ProcessChunks sessionMidCycle (Result.final "done") [160000, 160000] =
        Except.ok s2 ∧ s2.promise = some (Result.final "done") ∧
        s2.audioIsDone = false) :=
  ⟨rfl, rfl, rfl, rfl, by decide, by decide, by decide,
    C4_end_of_stream_exactly_once sessionMidCycle (Result.final "done")
      [160000, 160000] rfl rfl rfl rfl (by decide) (by decide) (by decide)⟩

/-- C6: counterexample.  Term on the concrete mid-cycle session performs
stopPump as its first action and errorCall only second: the pump is
stopped first, so the error path is not called first as the claim
states. -/
theorem C6_counterexample :
    (sessionMidCycle.Term).map (fun p => p.2.take 2) =
      Except.ok [Action.stopPump, Action.errorCall] ∧
    Action.stopPump ≠ Action.errorCall := ⟨rfl, by decide⟩

/-- C6 (amended): Term on a mid-cycle session stops the pump first and
then calls the error path, which resolves the channel exactly once with
the termination error result; afterwards the owned resources are
released in the fixed order pump, factory reference, codec adapter,
engine adapter; Term with no active cycle leaves the channel untouched. -/
theorem C6_term_stop_then_error (s t : Session)
    (hmid : s.audioPump = some PumpState.processing)
    (hdone : s.audioIsDone = true) (hp : s.promise = none)
    (hno : t.audioPump ≠ some PumpState.processing ∨ t.audioIsDone = false) :
    s.Term = Except.ok
      ({ s with
         audioPump := none, keepFactoryAlive := false,
         codecAdapter := false, codecFormat := none, reco := false,
         promise := some (Result.error "Terminate the http session.") },
       [Action.stopPump, Action.errorCall]
         ++ (if s.codecAdapter then [Action.closeCodec] else [])
         ++ [Action.termThreadService, Action.releasePump,
             Action.releaseFactory, Action.releaseCodec, Action.releaseReco]) ∧
    (t.Term).map (fun p => p.1.promise) = Except.ok t.promise := by
  constructor
  · unfold Session.Term Session.Error TermReleases
    simp [hmid, hdone, hp]
  · rcases hno with hno | hno
    · unfold Session.Term
      rw [if_neg hno]
      rfl
    · by_cases hpp : t.audioPump = some PumpState.processing
      · unfold Session.Term
        rw [if_pos hpp]
        simp [hno, TermReleases, Except.map]
      · unfold Session.Term
        rw [if_neg hpp]
        rfl

/-- C6 witness: the amended statement at the concrete mid-cycle session
and, for the no-active-cycle part, at the idle-pump session. -/
theorem C6_witness :
    sessionMidCycle.audioPump = some PumpState.processing ∧
    sessionMidCycle.audioIsDone = true ∧ sessionMidCycle.promise = none ∧
    (sessionIdlePump.audioPump ≠ some PumpState.processing ∨
      sessionIdlePump.audioIsDone = false) ∧
    (sessionMidCycle.Term = Except.ok
      ({ sessionMidCycle with
         audioPump := none, keepFactoryAlive := false,
         codecAdapter := false, codecFormat := none, reco := false,
         promise := some (Result.error "Terminate the http session.") },
       [Action.stopPump, Action.errorCall]
         ++ (if sessionMidCycle.codecAdapter then [Action.closeCodec] else [])
         ++ [Action.termThreadService, Action.releasePump,
             Action.releaseFactory, Action.releaseCodec, Action.releaseReco]) ∧
     (sessionIdlePump.Term).map (fun p => p.1.promise) =
       Except.ok sessionIdlePump.promise) :=
  ⟨rfl, rfl, rfl, Or.inr rfl,
    C6_term_stop_then_error sessionMidCycle sessionIdlePump rfl rfl rfl
      (Or.inr rfl)⟩

/-- C9: ProcessAudio's microphone duration accounting divides the chunk
byte length (times 1000, reduced mod 2^32) by the recorded average
bytes-per-second with no zero guard: with a zero recorded average the
division is undefined behaviour, and once a non-null SetFormat has
recorded a nonzero average the accounting is well-defined. -/
theorem C9_duration_division_precondition (s : Session) (sz : Nat)
    (r : Result) (f : WaveFormat)
    (hreco : s.reco = true) (hmic : s.fromMicrophone = true) :
    (s.avgBytesPerSecond = 0 →
      s.ProcessAudio sz r = Except.error Fault.divisionByZero) ∧
    (f.nAvgBytesPerSec ≠ 0 →
      ∀ s2, s.SetFormat (some f) r = Except.ok s2 →
        s2.avgBytesPerSecond = f.nAvgBytesPerSec ∧
        s2.ProcessAudio sz r ≠ Except.error Fault.divisionByZero) := by
  constructor
  · intro h0
    unfold Session.ProcessAudio FromBytesToMilisecond
    simp [hreco, hmic, h0]
  · intro hf s2 hset
    have hs2 : s2 = { s with
        reco := true, avgBytesPerSecond := f.nAvgBytesPerSec } := by
      unfold Session.SetFormat at hset
      simp [hreco] at hset
      exact hset.symm
    subst hs2
    refine ⟨rfl, ?_⟩
    unfold Session.ProcessAudio FromBytesToMilisecond
    simp only [hreco, hmic, hf]
    simp [hf]
    split
    · exact SetFormat_no_div_zero _ none r
    · simp

/-- C9 witness: a zero recorded average makes ProcessAudio undefined;
recording 32000 bytes/s through a non-null SetFormat restores it. -/
theorem C9_witness :
    ({ sessionMidCycle with avgBytesPerSecond := 0 } : Session).reco = true ∧
    ({ sessionMidCycle with avgBytesPerSecond := 0 } : Session).fromMicrophone = true ∧
    ((({ sessionMidCycle with avgBytesPerSecond := 0 } : Session).avgBytesPerSecond = 0 →
      ({ sessionMidCycle with avgBytesPerSecond := 0 } : Session).ProcessAudio
          3200 (Result.final "w") = Except.error Fault.divisionByZero) ∧
     (pcmFormat.nAvgBytesPerSec ≠ 0 →
      ∀ s2, ({ sessionMidCycle with avgBytesPerSecond := 0 } : Session).SetFormat
          (some pcmFormat) (Result.final "w") = Except.ok s2 →
        s2.avgBytesPerSecond = pcmFormat.nAvgBytesPerSec ∧
        s2.ProcessAudio 3200 (Result.final "w") ≠
          Except.error Fault.divisionByZero)) :=
  ⟨rfl, rfl,
    C9_duration_division_precondition
      { sessionMidCycle with avgBytesPerSecond := 0 } 3200 (Result.final "w")
      pcmFormat rfl rfl⟩

/-- C10: counterexample.  The override string "00" is not the literal
"0", parses to 0, and so configures a zero-millisecond microphone
timeout through the named-property surface. -/
theorem C10_counterexample :
    GetMicrophoneTimeout "00" 5000 = Except.ok 0 := rfl

/-- C10 (amended): the literal value "0" is treated as not configured and
returns the existing member unchanged — but a zero-millisecond timeout is
still configurable through the same property by other spellings of zero,
for example "00". -/
theorem C10_zero_literal_not_configured :
    (∀ m : Nat, GetMicrophoneTimeout "0" m = Except.ok m) ∧
    GetMicrophoneTimeout "00" 5000 = Except.ok 0 :=
  ⟨fun _ => rfl, rfl⟩

end HttpSession

namespace UspTransport

/-- The transport error enum has exactly seven enumerators. -/
theorem card_transportError : Fintype.card TransportError = 7 := by decide

/-- C8: counterexample.  The _TransportError enum does not consist of six
categories: it has seven enumerators (TRANSPORT_ERROR_UNKNOWN is one of
them). -/
theorem C8_counterexample : ¬ (Fintype.card TransportError = 6) := by
  rw [card_transportError]; omega

/-- C8 (amended): the transport error taxonomy consists of exactly seven
enumerators — the six categories the specification names plus the
TRANSPORT_ERROR_UNKNOWN sentinel — and a TransportErrorInfo carries a
reason, a numeric code and a free-form detail string. -/
theorem C8_transport_error_taxonomy :
    Fintype.card TransportError = 7 ∧
    (∀ e : TransportError,
      e = TransportError.TRANSPORT_ERROR_UNKNOWN ∨ e ∈ specCategories) ∧
    (∀ i : TransportErrorInfo,
      i = { reason := i.reason, errorCode := i.errorCode,
            errorString := i.errorString }) := by
  refine ⟨card_transportError, ?_, ?_⟩
  · intro e; cases e <;> simp [specCategories]
  · intro i; rfl

end UspTransport

